import Mathlib

/-!
Verification of the AI assessment gateway backend (src/backend/server.js)
against its natural-language specification. The server is shallowly embedded:
JSON values are an inductive type, JavaScript truthiness and typeof are
explicit functions, the provider registry is a literal association list, and
the request-admission pipeline of the POST /api/analyze handler is a pure
function over an explicit environment.
-/

namespace Gateway

/-- JavaScript-style JSON values. A JS number is represented by an exact
rational. An absent value (JS undefined) is represented at use sites by
`Option Json` being `none`. -/
inductive Json where
  | null : Json
  | bool (b : Bool) : Json
  | num (q : ℚ) : Json
  | str (s : String) : Json
  | arr (elems : List Json) : Json
  | obj (fields : List (String × Json)) : Json

/-- JavaScript truthiness of a value: null, false, 0 and the empty string are
falsy, every array and object is truthy. -/
def jsTruthy : Json → Bool
  | .null => false
  | .bool b => b
  | .num q => if q = 0 then false else true
  | .str s => if s = "" then false else true
  | .arr _ => true
  | .obj _ => true

/-- Whether the JS expression `typeof v === 'object'` holds: true for null,
arrays and plain objects, false for booleans, numbers and strings. -/
def jsTypeofObject : Json → Bool
  | .null => true
  | .arr _ => true
  | .obj _ => true
  | _ => false

/-- Own-property access `v[k]`; yields `none` for JS undefined. -/
def getField : Json → String → Option Json
  | .obj fields, k => fields.lookup k
  | _, _ => none

/-- Array index access `v[i]`; yields `none` for JS undefined. -/
def getIndex : Json → Nat → Option Json
  | .arr elems, i => elems.get? i
  | _, _ => none

/-- Validation of the `responses` field of the request body, server.js lines
105-110: the handler rejects when `!responses || typeof responses !== 'object'`.
`none` models an absent field. Returns true when validation passes. -/
def validResponses (responses : Option Json) : Bool :=
  match responses with
  | none => false
  | some j => jsTruthy j && jsTypeofObject j

/-- Characterization of the values the responses validation accepts: a value
of JS object type other than null, that is an array or a plain object,
possibly empty. -/
def isJsObjectLike : Json → Bool
  | .arr _ => true
  | .obj _ => true
  | _ => false

/-- One entry of the PROVIDERS table, server.js lines 66-95. Prices are the
costPer1M input/output rates as exact rationals. -/
structure ProviderConfig where
  name : String
  apiUrl : String
  model : String
  costInputPer1M : ℚ
  costOutputPer1M : ℚ
  envKey : String
deriving DecidableEq

def claudeConfig : ProviderConfig :=
  { name := "Claude (Direct)"
  , apiUrl := "https://api.anthropic.com/v1/messages"
  , model := "claude-sonnet-4-20250514"
  , costInputPer1M := 3
  , costOutputPer1M := 15
  , envKey := "ANTHROPIC_API_KEY" }

def openrouterClaudeConfig : ProviderConfig :=
  { name := "Claude (via OpenRouter)"
  , apiUrl := "https://openrouter.ai/api/v1/chat/completions"
  , model := "anthropic/claude-sonnet-4"
  , costInputPer1M := 3
  , costOutputPer1M := 15
  , envKey := "OPENROUTER_API_KEY" }

def openrouterGpt4Config : ProviderConfig :=
  { name := "GPT-4 Turbo (via OpenRouter)"
  , apiUrl := "https://openrouter.ai/api/v1/chat/completions"
  , model := "openai/gpt-4-turbo"
  , costInputPer1M := 10
  , costOutputPer1M := 30
  , envKey := "OPENROUTER_API_KEY" }

def openrouterHaikuConfig : ProviderConfig :=
  { name := "Claude Haiku (via OpenRouter)"
  , apiUrl := "https://openrouter.ai/api/v1/chat/completions"
  , model := "anthropic/claude-3.5-haiku"
  , costInputPer1M := 4/5
  , costOutputPer1M := 4
  , envKey := "OPENROUTER_API_KEY" }

/-- The PROVIDERS registry, server.js lines 66-95, as an association list in
source order. -/
def PROVIDERS : List (String × ProviderConfig) :=
  [ ("claude", claudeConfig)
  , ("openrouter_claude", openrouterClaudeConfig)
  , ("openrouter_gpt4", openrouterGpt4Config)
  , ("openrouter_haiku", openrouterHaikuConfig) ]

/-- The registered provider ids, in registry order (Object.keys(PROVIDERS)). -/
def validProviderIds : List String := PROVIDERS.map Prod.fst

/-- The 400 message for an unknown provider, server.js line 117. -/
def invalidProviderMessage : String :=
  "Provider must be one of: " ++ String.intercalate ", " validProviderIds

/-- Result of the JS property access `PROVIDERS[provider]` at server.js line
113. PROVIDERS is a plain object literal, so the access walks the prototype
chain: an own key of the literal yields its ProviderConfig; a key naming a
member of Object.prototype (constructor, toString, __proto__, ...) yields a
truthy inherited value that is not a ProviderConfig; every other key yields
JS undefined. -/
inductive PropLookup where
  | own (cfg : ProviderConfig)
  | inherited
  | absent
deriving DecidableEq

/-- The property names a plain object literal inherits from Object.prototype
in Node, all of which `PROVIDERS[provider]` resolves to truthy values
(functions, or Object.prototype itself for __proto__). -/
def objectProtoProps : List String :=
  [ "constructor", "hasOwnProperty", "isPrototypeOf", "propertyIsEnumerable"
  , "toLocaleString", "toString", "valueOf", "__proto__"
  , "__defineGetter__", "__defineSetter__", "__lookupGetter__", "__lookupSetter__" ]

/-- The lookup `PROVIDERS[provider]`, server.js line 113, with JS prototype
chain semantics: own keys first, then the members inherited from
Object.prototype, then undefined. -/
def providerLookup (p : String) : PropLookup :=
  match PROVIDERS.lookup p with
  | some cfg => .own cfg
  | none => if p ∈ objectProtoProps then .inherited else .absent

/-- Outcome of the admission part of the POST /api/analyze handler (server.js
lines 102-129): either an early error return, or a dispatch to the upstream
provider. `configError` carries the server-side console.error line as
`serverLog`. `protoDispatch` is the admission outcome when the provider value
is a truthy member inherited from Object.prototype and an environment entry
literally named undefined exists: the handler passes the apiKey check and
proceeds to the branch tests with no registered provider config (neither
branch matches such an id, and the later cost computation throws). -/
inductive AnalyzeOutcome where
  | badRequest (error message : String)
  | configError (error message serverLog : String)
  | dispatch (providerId : String) (cfg : ProviderConfig)
  | protoDispatch (providerId : String)
deriving DecidableEq

/-- HTTP status of an admission outcome; `none` for a dispatch, whose status
is determined later by the upstream exchange. -/
def outcomeStatus : AnalyzeOutcome → Option Nat
  | .badRequest _ _ => some 400
  | .configError _ _ _ => some 500
  | .dispatch _ _ => none
  | .protoDispatch _ => none

/-- The admission pipeline of POST /api/analyze, server.js lines 102-129:
destructure `provider = 'claude'` defaulting on an absent field, validate
`responses`, evaluate `PROVIDERS[provider]` with prototype chain semantics
(the guard `!providerConfig` at line 114 only fires on undefined, since every
inherited hit is truthy), then check the credential
`process.env[providerConfig.envKey]` (the JS test `!apiKey` fails on an
absent entry and on the empty string). For an inherited hit, envKey is
undefined and `process.env[undefined]` coerces the key to the literal string
undefined. `env` models process.env. -/
def analyzeAdmission (env : String → Option String) (responses : Option Json)
    (provider : Option String) : AnalyzeOutcome :=
  let providerId := provider.getD "claude"
  if validResponses responses = false then
    .badRequest "Invalid request" "Missing or invalid responses object"
  else
    match providerLookup providerId with
    | .absent => .badRequest "Invalid provider" invalidProviderMessage
    | .inherited =>
      match env "undefined" with
      | none =>
          .configError "Configuration error"
            "Server is not properly configured. Please contact administrator."
            ("Missing API key for provider: " ++ providerId)
      | some key =>
          if key = "" then
            .configError "Configuration error"
              "Server is not properly configured. Please contact administrator."
              ("Missing API key for provider: " ++ providerId)
          else
            .protoDispatch providerId
    | .own cfg =>
      match env cfg.envKey with
      | none =>
          .configError "Configuration error"
            "Server is not properly configured. Please contact administrator."
            ("Missing API key for provider: " ++ providerId)
      | some key =>
          if key = "" then
            .configError "Configuration error"
              "Server is not properly configured. Please contact administrator."
              ("Missing API key for provider: " ++ providerId)
          else
            .dispatch providerId cfg

/-! CORS origin guard, server.js lines 17-33, and the express error handler,
lines 483-490, which is where a CORS rejection error surfaces. -/

/-- The three fixed allow-list entries, server.js lines 18-20. -/
def baseAllowedOrigins : List String :=
  ["https://godagoo.github.io", "http://localhost:3000", "http://127.0.0.1:3000"]

/-- allowedOrigins, server.js lines 17-22: the fixed entries plus FRONTEND_URL,
with falsy entries removed by .filter(Boolean). `none` or the empty string for
`frontendUrl` models an unset FRONTEND_URL. -/
def allowedOrigins (frontendUrl : Option String) : List String :=
  (baseAllowedOrigins ++ [frontendUrl.getD ""]).filter (fun s => s ≠ "")

/-- The CORS origin callback, server.js lines 25-31: allow when the Origin
header is absent or falsy, or when it is contained in allowedOrigins; deny
otherwise. `none` models an absent Origin header. -/
def corsAllow (frontendUrl : Option String) (origin : Option String) : Bool :=
  match origin with
  | none => true
  | some o => if o = "" then true else (allowedOrigins frontendUrl).contains o

/-- The message of the Error passed to the CORS callback on denial,
server.js line 29. -/
def corsDenialMessage : String := "Not allowed by CORS"

/-- The express error handler, server.js lines 483-490: status 500, and the
message is the error message in development mode, a fixed generic string
otherwise. Returns the pair of HTTP status and body message. -/
def errorHandlerResponse (isDevelopment : Bool) (errMessage : String) :
    Nat × String :=
  (500, if isDevelopment then errMessage else "An unexpected error occurred")

/-! Rate limiter. The fixed-window counter itself lives in the
express-rate-limit dependency, which is not part of this repository, so it is
modelled from the specification; the window length and maximum come from the
limiter configuration in server.js lines 36-45. -/

/-- windowMs from server.js line 37: 15 minutes in milliseconds. -/
def windowMs : Nat := 15 * 60 * 1000

/-- max from server.js line 38: 10 requests per window. -/
def maxPerWindow : Nat := 10

/-- Modelled from the spec: the per-identity rate state of section 4.3
(ClientRateState), a window start timestamp and a count of requests since
that start. -/
structure RateState where
  windowStart : Nat
  count : Nat
deriving DecidableEq

/-- Result of one admission decision of the rate limiter. -/
inductive LimitDecision where
  | allowed
  | rejected (retryAfter : Nat)
deriving DecidableEq

/-- Modelled from the spec: one step of the fixed-window counter of section
4.3. If no state exists or the window has elapsed, reset the window; then
increment the count; reject with retryAfter when the count exceeds the
maximum, allow otherwise. Times are in milliseconds. -/
def limitStep (st : Option RateState) (now : Nat) : LimitDecision × RateState :=
  let st1 : RateState :=
    match st with
    | none => { windowStart := now, count := 0 }
    | some s =>
        if windowMs ≤ now - s.windowStart then { windowStart := now, count := 0 }
        else s
  let st2 : RateState := { st1 with count := st1.count + 1 }
  if maxPerWindow < st2.count then
    (.rejected (windowMs - (now - st2.windowStart)), st2)
  else
    (.allowed, st2)

/-- The rate state after n requests from the same client, all issued at time
t, starting from no state. -/
def stateAfter (t : Nat) : Nat → Option RateState
  | 0 => none
  | n + 1 => some (limitStep (stateAfter t n) t).2

/-- The decision the limiter takes on the request that arrives at time t when
n requests from the same client have already been counted at time t. -/
def decisionAt (t : Nat) (n : Nat) : LimitDecision :=
  (limitStep (stateAfter t n) t).1

/-! Upstream error path: server.js lines 375-377 (claude branch) and 405-407
(openrouter branch) throw an Error built from the parsed upstream error body,
and the catch handler at lines 447-455 surfaces it. -/

/-- The message of the Error thrown on a non-2xx upstream response, server.js
line 377: `errorData.error?.message || 'API error: ' + status` where errorData
is the parsed JSON body, or an empty object when the body does not parse
(`.catch(() => ({}))`). `parsedBody` is `none` when the body is unparseable.
The JS or-operator keeps a truthy value and otherwise takes the fallback. -/
def upstreamErrorMessage (status : Nat) (parsedBody : Option Json) : Json :=
  let errorData := parsedBody.getD (.obj [])
  match (getField errorData "error").bind (fun e => getField e "message") with
  | some v => if jsTruthy v then v else .str ("API error: " ++ toString status)
  | none => .str ("API error: " ++ toString status)

/-- The HTTP status the catch handler responds with, server.js line 450. -/
def catchStatus : Nat := 500

/-- The body of the catch handler response for an error with the given
message, server.js lines 450-454: error field, then
`error.message || 'An unexpected error occurred'`. -/
def catchBody (errMessage : String) : String × String :=
  ("Analysis failed",
   if errMessage = "" then "An unexpected error occurred" else errMessage)

/-! Response normalization, server.js lines 380-383 (message-style) and
410-413 (chat-completion-style), the cost computation at lines 417-419, and
the success response assembly at lines 425-445. -/

/-- Token-count extraction `data.usage?.<field> || 0`, server.js lines
382-383 and 412-413: optional chaining on the usage object, then the JS
or-operator which keeps a truthy value and otherwise yields 0. -/
def tokenCount (data : Json) (field : String) : Json :=
  match (getField data "usage").bind (fun u => getField u field) with
  | some v => if jsTruthy v then v else .num 0
  | none => .num 0

/-- Message-style normalization, server.js lines 380-383: text from
data.content[0].text, token counts from usage.input_tokens and
usage.output_tokens. The text component is `none` where the JS property chain
produces undefined or throws. -/
def normalizeMessage (data : Json) : Option Json × Json × Json :=
  ( ((getField data "content").bind (fun c => getIndex c 0)).bind
      (fun b => getField b "text")
  , tokenCount data "input_tokens"
  , tokenCount data "output_tokens" )

/-- Chat-completion-style normalization, server.js lines 410-413: text from
data.choices[0].message.content, token counts from usage.prompt_tokens and
usage.completion_tokens. -/
def normalizeChat (data : Json) : Option Json × Json × Json :=
  ( ((((getField data "choices").bind (fun c => getIndex c 0)).bind
        (fun m => getField m "message")).bind (fun m => getField m "content"))
  , tokenCount data "prompt_tokens"
  , tokenCount data "completion_tokens" )

/-- inputCost, server.js line 417. -/
def inputCost (cfg : ProviderConfig) (inputTokens : ℚ) : ℚ :=
  inputTokens / 1000000 * cfg.costInputPer1M

/-- outputCost, server.js line 418. -/
def outputCost (cfg : ProviderConfig) (outputTokens : ℚ) : ℚ :=
  outputTokens / 1000000 * cfg.costOutputPer1M

/-- totalCost, server.js line 419. -/
def totalCost (cfg : ProviderConfig) (inputTokens outputTokens : ℚ) : ℚ :=
  inputCost cfg inputTokens + outputCost cfg outputTokens

/-- The tokens block of the success response metadata, server.js lines
431-435. -/
structure TokensMeta where
  input : ℚ
  output : ℚ
  total : ℚ
deriving DecidableEq

/-- The success response fields relevant to the claims, assembled as in
server.js lines 425-445. -/
structure SuccessResponse where
  success : Bool
  analysis : String
  tokens : TokensMeta
  costTotal : ℚ
deriving DecidableEq

/-- Assembly of the success response, server.js lines 425-445: success true,
the analysis text, tokens.total as the sum of the counts, and the total cost
from the cost computation. -/
def assembleSuccess (cfg : ProviderConfig) (text : String)
    (inputTokens outputTokens : ℚ) : SuccessResponse :=
  { success := true
  , analysis := text
  , tokens :=
      { input := inputTokens
      , output := outputTokens
      , total := inputTokens + outputTokens }
  , costTotal := totalCost cfg inputTokens outputTokens }

/-! Provider dispatch branching, server.js lines 356 and 385. -/

/-- Character-list model of the JS test provider.startsWith('openrouter_'),
server.js line 385. -/
def strStartsWith (s pre : String) : Bool := pre.toList.isPrefixOf s.toList

/-- The two authentication branches of the dispatcher: the direct claude
branch sends the key in an x-api-key header, the openrouter branch sends a
Bearer Authorization header. -/
inductive DispatchBranch where
  | claudeDirect
  | openrouter
deriving DecidableEq

/-- Branch selection of the dispatcher, server.js lines 356 and 385:
`provider === 'claude'` first, else `provider.startsWith('openrouter_')`;
`none` when neither test matches, in which case analysisText is never
assigned. -/
def dispatchBranch (providerId : String) : Option DispatchBranch :=
  if providerId = "claude" then some .claudeDirect
  else if strStartsWith providerId "openrouter_" then some .openrouter
  else none

/-! Supporting lemmas for the rate limiter scenario. -/

/-- A repeated request at the same timestamp keeps the window and bumps the
count; the decision compares the bumped count against the maximum. -/
theorem limitStep_same_time (t n : Nat) :
    limitStep (some ⟨t, n⟩) t =
      (if maxPerWindow < n + 1 then LimitDecision.rejected windowMs else .allowed,
       ⟨t, n + 1⟩) := by
  unfold limitStep
  simp [windowMs, Nat.sub_self]
  split <;> rfl

/-- The very first request from a client is admitted and starts a window. -/
theorem limitStep_first (t : Nat) :
    limitStep none t = (.allowed, ⟨t, 1⟩) := by
  unfold limitStep
  simp [maxPerWindow]

/-- After n + 1 requests at time t the tracked state is window start t and
count n + 1. -/
theorem stateAfter_eq (t : Nat) : ∀ n, stateAfter t (n + 1) = some ⟨t, n + 1⟩ := by
  intro n
  induction n with
  | zero => simp [stateAfter, limitStep_first]
  | succ k ih =>
      rw [stateAfter, ih, limitStep_same_time]

/-- C2: for every client identity and a fixed window, each of the first 10
requests issued at time t is admitted, the 11th is rejected with the positive
retryAfter windowMs, and a request issued once the window has elapsed is
admitted again. -/
theorem rate_limit_window_scenario (t : Nat) :
    (∀ n, n < 10 → decisionAt t n = .allowed)
    ∧ decisionAt t 10 = .rejected windowMs
    ∧ 0 < windowMs
    ∧ (∀ t2, t + windowMs ≤ t2 → (limitStep (stateAfter t 11) t2).1 = .allowed) := by
  refine ⟨?_, ?_, by norm_num [windowMs], ?_⟩
  · intro n hn
    match n with
    | 0 => simp [decisionAt, stateAfter, limitStep_first]
    | m + 1 =>
        have hm : ¬ maxPerWindow < m + 1 + 1 := by
          simp only [maxPerWindow]; omega
        simp [decisionAt, stateAfter_eq, limitStep_same_time, hm]
  · have h10 : maxPerWindow < 10 + 1 := by norm_num [maxPerWindow]
    simp [decisionAt, stateAfter_eq, limitStep_same_time, h10]
  · intro t2 ht2
    have hw : windowMs ≤ t2 - t := by omega
    have hc : ¬ maxPerWindow < 0 + 1 := by norm_num [maxPerWindow]
    simp [stateAfter_eq, limitStep, hw, hc]

/-- Witness for C2 at t = 0 and a follow-up request at t = windowMs. -/
theorem rate_limit_window_scenario_witness :
    decisionAt 0 0 = .allowed
    ∧ decisionAt 0 9 = .allowed
    ∧ decisionAt 0 10 = .rejected windowMs
    ∧ (limitStep (stateAfter 0 11) windowMs).1 = .allowed := by
  have h := rate_limit_window_scenario 0
  exact ⟨h.1 0 (by decide), h.1 9 (by decide), h.2.1,
    h.2.2.2 windowMs (by simp)⟩

/-- C1 counterexample: a payload whose responses field is the empty mapping
passes validation (the handler only tests JS truthiness and typeof), and with
a configured credential it reaches the upstream dispatch, contradicting the
claim that an empty mapping is rejected before any dispatch. -/
theorem empty_responses_pass_validation :
    validResponses (some (.obj [])) = true
    ∧ analyzeAdmission
        (fun k => if k = "ANTHROPIC_API_KEY" then some "sk-test" else none)
        (some (.obj [])) none = .dispatch "claude" claudeConfig := by
  exact ⟨by decide, by decide⟩

/-- C1 (amended): validation fails, with a 400 response and no dispatch,
exactly when the responses field is absent, null, or of non-object JS type
(boolean, number, string); arrays and mappings, including the empty mapping,
pass. -/
theorem validation_rejects_exactly_non_objects (env : String → Option String)
    (r : Option Json) (p : Option String) :
    validResponses r = isJsObjectLike (r.getD .null)
    ∧ (validResponses r = false →
        analyzeAdmission env r p =
          .badRequest "Invalid request" "Missing or invalid responses object"
        ∧ outcomeStatus (analyzeAdmission env r p) = some 400) := by
  constructor
  · match r with
    | none => rfl
    | some j => cases j <;> simp [validResponses, jsTruthy, jsTypeofObject, isJsObjectLike]
  · intro hv
    unfold analyzeAdmission
    simp [hv, outcomeStatus]

/-- Witness for C1 (amended): a string-valued responses field is rejected
with the 400 body and never dispatched. -/
theorem validation_rejects_exactly_non_objects_witness :
    validResponses (some (.str "answers")) = false
    ∧ analyzeAdmission (fun _ => none) (some (.str "answers")) none =
        .badRequest "Invalid request" "Missing or invalid responses object" := by
  refine ⟨by decide, ?_⟩
  exact ((validation_rejects_exactly_non_objects (fun _ => none)
    (some (.str "answers")) none).2 (by decide)).1

/-- C3 counterexample: a denied origin is surfaced through the generic
express error handler with HTTP status 500, not a 400 or 403 client error as
the claim states. -/
theorem cors_denial_surfaced_as_500 :
    corsAllow none (some "https://attacker.example") = false
    ∧ (errorHandlerResponse false corsDenialMessage).1 = 500
    ∧ (errorHandlerResponse false corsDenialMessage).1 ≠ 400
    ∧ (errorHandlerResponse false corsDenialMessage).1 ≠ 403 := by
  exact ⟨by decide, by decide, by decide, by decide⟩

/-- C3 (amended): the origin guard allows an absent or empty declared origin
and any origin exactly equal to an allow-list entry, and denies every other
origin; the denial is surfaced by the error handler with HTTP status 500 and
a fixed message in each mode, neither of which mentions the allow-list. -/
theorem origin_guard_policy (frontendUrl : Option String) (origin : Option String) :
    (corsAllow frontendUrl origin = true ↔
      origin = none ∨ origin = some "" ∨
        ∃ o, origin = some o ∧ o ∈ allowedOrigins frontendUrl)
    ∧ errorHandlerResponse false corsDenialMessage =
        (500, "An unexpected error occurred")
    ∧ errorHandlerResponse true corsDenialMessage = (500, "Not allowed by CORS") := by
  refine ⟨?_, rfl, rfl⟩
  cases origin with
  | none => simp [corsAllow]
  | some o =>
      by_cases h : o = ""
      · subst h; simp [corsAllow]
      · simp [corsAllow, h]

/-- Witness for C3 (amended): a listed origin is allowed, and the denial
surface for a production deployment is the fixed 500 response. -/
theorem origin_guard_policy_witness :
    corsAllow none (some "https://godagoo.github.io") = true
    ∧ errorHandlerResponse false corsDenialMessage =
        (500, "An unexpected error occurred") := by
  refine ⟨?_, (origin_guard_policy none none).2.1⟩
  exact (origin_guard_policy none (some "https://godagoo.github.io")).1.mpr
    (Or.inr (Or.inr ⟨"https://godagoo.github.io", rfl, by decide⟩))

/-- C4 counterexample: a non-2xx upstream response with an unparseable body
at status 503 is thrown with message API error: 503 and surfaced by the catch
handler with HTTP status 500, not 502, and the generic message form differs
from the upstream error form the claim states. -/
theorem upstream_error_surfaced_as_500 :
    catchStatus = 500
    ∧ catchStatus ≠ 502
    ∧ upstreamErrorMessage 503 none = .str "API error: 503"
    ∧ catchBody "API error: 503" = ("Analysis failed", "API error: 503")
    ∧ "API error: 503" ≠ "upstream error 503" := by
  exact ⟨rfl, by decide, rfl, by decide, by decide⟩

/-- C4 (amended): a non-2xx upstream status causes an Error whose message is
the upstream error.message when the body is parseable JSON carrying a
non-empty string at error.message, and otherwise the generic form
API error: status; the catch handler surfaces it with HTTP status 500 in
every case, never 502. -/
theorem upstream_error_message_and_status (status : Nat) (body : Option Json)
    (s : String) :
    catchStatus = 500
    ∧ (upstreamErrorMessage status none =
        .str ("API error: " ++ toString status))
    ∧ ((getField (body.getD (.obj [])) "error").bind (fun e => getField e "message") =
          none →
        upstreamErrorMessage status body =
          .str ("API error: " ++ toString status))
    ∧ ((getField (body.getD (.obj [])) "error").bind (fun e => getField e "message") =
          some (.str s) → s ≠ "" →
        upstreamErrorMessage status body = .str s)
    ∧ (s ≠ "" → catchBody s = ("Analysis failed", s)) := by
  refine ⟨rfl, rfl, ?_, ?_, ?_⟩
  · intro h
    simp [upstreamErrorMessage, h]
  · intro h hs
    simp [upstreamErrorMessage, h, jsTruthy, hs]
  · intro hs
    unfold catchBody
    simp [hs]

/-- Witness for C4 (amended): a parseable upstream error body carrying the
message boom is surfaced with that message and status 500. -/
theorem upstream_error_message_and_status_witness :
    upstreamErrorMessage 429
        (some (.obj [("error", .obj [("message", .str "boom")])])) = .str "boom"
    ∧ catchStatus = 500
    ∧ catchBody "boom" = ("Analysis failed", "boom") := by
  have h := upstream_error_message_and_status 429
    (some (.obj [("error", .obj [("message", .str "boom")])])) "boom"
  exact ⟨h.2.2.2.1 rfl (by decide), h.1, h.2.2.2.2 (by decide)⟩

/-- C5 counterexample: the provider id constructor does not resolve in the
PROVIDERS registry (it is no own key), yet the response is not the 400
enumeration: `PROVIDERS['constructor']` hits the truthy inherited
Object.prototype member, the guard at server.js line 114 does not fire, and
`process.env[undefined]` being unset lands the request in the 500
Configuration error path. -/
theorem constructor_provider_surfaces_500 :
    PROVIDERS.lookup "constructor" = none
    ∧ providerLookup "constructor" = .inherited
    ∧ analyzeAdmission (fun _ => none) (some (.obj [("industry", .str "saas")]))
        (some "constructor") =
      .configError "Configuration error"
        "Server is not properly configured. Please contact administrator."
        "Missing API key for provider: constructor"
    ∧ outcomeStatus (analyzeAdmission (fun _ => none)
        (some (.obj [("industry", .str "saas")])) (some "constructor")) = some 500 := by
  exact ⟨by decide, by decide, by decide, by decide⟩

/-- C5 (amended): a validated request naming a provider id that is neither an
own key of PROVIDERS nor an inherited Object.prototype member is answered
with HTTP 400 and the message enumerating every registered provider id; an
id naming an inherited member bypasses the 400 branch and, when no
environment entry literally named undefined exists, surfaces as a 500
Configuration error; an absent provider field behaves exactly as provider
claude, the configured default. -/
theorem unknown_provider_rejected_with_enumeration (env : String → Option String)
    (r : Option Json) (p : String)
    (hr : validResponses r = true) (hp : providerLookup p = .absent) :
    analyzeAdmission env r (some p) = .badRequest "Invalid provider" invalidProviderMessage
    ∧ outcomeStatus (analyzeAdmission env r (some p)) = some 400
    ∧ invalidProviderMessage =
        "Provider must be one of: claude, openrouter_claude, openrouter_gpt4, openrouter_haiku"
    ∧ validProviderIds = PROVIDERS.map Prod.fst
    ∧ (∀ env2 r2, analyzeAdmission env2 r2 none = analyzeAdmission env2 r2 (some "claude"))
    ∧ (∀ p2, providerLookup p2 = .inherited → env "undefined" = none →
        analyzeAdmission env r (some p2) =
          .configError "Configuration error"
            "Server is not properly configured. Please contact administrator."
            ("Missing API key for provider: " ++ p2)) := by
  refine ⟨?_, ?_, by decide, rfl, fun env2 r2 => rfl, ?_⟩
  · unfold analyzeAdmission
    simp [hr, hp]
  · unfold analyzeAdmission
    simp [hr, hp, outcomeStatus]
  · intro p2 hin henv
    unfold analyzeAdmission
    simp [hr, hin, henv]

/-- Witness for C5 at the unknown id nonexistent, with the inherited-member
part exercised at constructor. -/
theorem unknown_provider_rejected_with_enumeration_witness :
    validResponses (some (.obj [("industry", .str "saas")])) = true
    ∧ providerLookup "nonexistent" = .absent
    ∧ analyzeAdmission (fun _ => none) (some (.obj [("industry", .str "saas")]))
        (some "nonexistent") = .badRequest "Invalid provider" invalidProviderMessage
    ∧ analyzeAdmission (fun _ => none) (some (.obj [("industry", .str "saas")]))
        (some "toString") =
      .configError "Configuration error"
        "Server is not properly configured. Please contact administrator."
        ("Missing API key for provider: " ++ "toString") := by
  refine ⟨by decide, by decide, ?_, ?_⟩
  · exact (unknown_provider_rejected_with_enumeration (fun _ => none)
      (some (.obj [("industry", .str "saas")])) "nonexistent" (by decide) (by decide)).1
  · exact (unknown_provider_rejected_with_enumeration (fun _ => none)
      (some (.obj [("industry", .str "saas")])) "nonexistent" (by decide)
      (by decide)).2.2.2.2.2 "toString" (by decide) rfl

/-- C6: a validated request whose resolved provider has no usable credential
(the environment entry is absent or the empty string, both falsy in JS) is
answered with HTTP 500 and a fixed generic message that does not depend on
which of the two cases holds, the provider id is written to the server-side
log line, and no dispatch to the upstream happens. -/
theorem missing_credential_config_error (env : String → Option String)
    (r : Option Json) (p : String) (cfg : ProviderConfig)
    (hr : validResponses r = true) (hp : PROVIDERS.lookup p = some cfg)
    (hk : env cfg.envKey = none ∨ env cfg.envKey = some "") :
    analyzeAdmission env r (some p) =
      .configError "Configuration error"
        "Server is not properly configured. Please contact administrator."
        ("Missing API key for provider: " ++ p)
    ∧ outcomeStatus (analyzeAdmission env r (some p)) = some 500
    ∧ (∀ q cfg2, analyzeAdmission env r (some p) ≠ .dispatch q cfg2) := by
  have hpl : providerLookup p = .own cfg := by
    unfold providerLookup
    rw [hp]
  have hmain : analyzeAdmission env r (some p) =
      .configError "Configuration error"
        "Server is not properly configured. Please contact administrator."
        ("Missing API key for provider: " ++ p) := by
    unfold analyzeAdmission
    rcases hk with hk | hk <;> simp [hr, hpl, hk]
  refine ⟨hmain, ?_, ?_⟩
  · rw [hmain]; rfl
  · intro q cfg2
    rw [hmain]
    exact fun hcontra => AnalyzeOutcome.noConfusion hcontra

/-- Witness for C6: provider claude with an empty environment. -/
theorem missing_credential_config_error_witness :
    analyzeAdmission (fun _ => none) (some (.obj [("industry", .str "saas")]))
        (some "claude") =
      .configError "Configuration error"
        "Server is not properly configured. Please contact administrator."
        "Missing API key for provider: claude" := by
  exact (missing_credential_config_error (fun _ => none)
    (some (.obj [("industry", .str "saas")])) "claude" claudeConfig
    (by decide) (by decide) (Or.inl rfl)).1

/-- C7: the cost meter computes inputCost as inputTokens over one million
times the input price, outputCost likewise, and totalCost as their sum; for
the registered claude provider, priced 3 and 15 per million, 1000 input and
2000 output tokens cost exactly 33/1000, and zero token counts give a zero
estimate. The JS double arithmetic is modelled by exact rationals, which the
claim tolerance of standard double-precision rounding contains. -/
theorem cost_meter_formula (cfg : ProviderConfig) (i o : ℚ) :
    inputCost cfg i = i / 1000000 * cfg.costInputPer1M
    ∧ outputCost cfg o = o / 1000000 * cfg.costOutputPer1M
    ∧ totalCost cfg i o = inputCost cfg i + outputCost cfg o
    ∧ PROVIDERS.lookup "claude" = some claudeConfig
    ∧ claudeConfig.costInputPer1M = 3
    ∧ claudeConfig.costOutputPer1M = 15
    ∧ totalCost claudeConfig 1000 2000 = 33 / 1000
    ∧ totalCost cfg 0 0 = 0 := by
  refine ⟨rfl, rfl, rfl, by decide, rfl, rfl, ?_, ?_⟩
  · norm_num [totalCost, inputCost, outputCost, claudeConfig]
  · simp [totalCost, inputCost, outputCost]

/-- C8: a message-style upstream payload carrying text but no usage object
normalizes to the text with both token counts zero, and the assembled success
response carries success true, the text, and a tokens.total that always
equals the sum of the input and output counts. -/
theorem missing_usage_defaults_to_zero (data : Json) (s : String)
    (cfg : ProviderConfig)
    (ht : ((getField data "content").bind (fun c => getIndex c 0)).bind
        (fun b => getField b "text") = some (.str s))
    (hu : getField data "usage" = none) :
    normalizeMessage data = (some (.str s), .num 0, .num 0)
    ∧ (assembleSuccess cfg s 0 0).success = true
    ∧ (assembleSuccess cfg s 0 0).analysis = s
    ∧ (assembleSuccess cfg s 0 0).tokens.total = 0
    ∧ (∀ i o : ℚ, (assembleSuccess cfg s i o).tokens.total =
        (assembleSuccess cfg s i o).tokens.input +
          (assembleSuccess cfg s i o).tokens.output) := by
  refine ⟨?_, rfl, rfl, ?_, fun i o => rfl⟩
  · unfold normalizeMessage tokenCount
    rw [ht, hu]
    rfl
  · simp [assembleSuccess]

/-- Witness for C8 on the round-trip payload with text Report body and no
usage object. -/
theorem missing_usage_defaults_to_zero_witness :
    normalizeMessage
        (.obj [("content", .arr [.obj [("text", .str "Report body")]])]) =
      (some (.str "Report body"), .num 0, .num 0)
    ∧ (assembleSuccess claudeConfig "Report body" 0 0).success = true
    ∧ (assembleSuccess claudeConfig "Report body" 0 0).analysis = "Report body" := by
  have h := missing_usage_defaults_to_zero
    (.obj [("content", .arr [.obj [("text", .str "Report body")]])])
    "Report body" claudeConfig rfl rfl
  exact ⟨h.1, h.2.1, h.2.2.1⟩

/-- C9: both normalization handlers are pure functions of the raw upstream
payload; running either a second time on the same payload yields the same
text and token-count triple, with no dependence on hidden state. -/
theorem normalization_deterministic (data : Json) :
    normalizeMessage data = normalizeMessage data
    ∧ normalizeChat data = normalizeChat data := by
  exact ⟨rfl, rfl⟩

/-- C10: every id in the PROVIDERS registry is either exactly claude or
begins with openrouter_, so the dispatcher always enters exactly one of its
two authentication branches and analysisText is assigned on every registered
provider; no registered id falls through both branches. -/
theorem registry_ids_cover_dispatch :
    ∀ p ∈ validProviderIds,
      (p = "claude" ∨ strStartsWith p "openrouter_" = true)
      ∧ (dispatchBranch p).isSome = true
      ∧ ¬(p = "claude" ∧ strStartsWith p "openrouter_" = true) := by
  decide

/-- Witness for C10 at the registered id openrouter_gpt4. -/
theorem registry_ids_cover_dispatch_witness :
    strStartsWith "openrouter_gpt4" "openrouter_" = true
    ∧ (dispatchBranch "openrouter_gpt4").isSome = true := by
  have h := registry_ids_cover_dispatch "openrouter_gpt4" (by decide)
  exact ⟨h.1.resolve_left (by decide), h.2.1⟩

end Gateway
